import Mathlib

/-!
Shallow embedding of the payment-integration backend (src/index.ts).

The service exposes three gateway-backed HTTP handlers:
  * POST /api/create-preference — validates the cart, builds a checkout-session
    request and forwards it to the payment gateway;
  * POST /api/webhook — acknowledges gateway payment events, looking the payment
    up when the event type is "payment";
  * GET /api/payment/:id — projects a gateway payment record back to the caller.

Each handler is modelled as a pure function.  The gateway is passed in as an
explicit function returning `Except GatewayError _`; the request an handler
sends to the gateway is recorded in the result (`gatewayCall` / `lookupCall`)
so that "the gateway is (not) invoked" is statable.  JSON response bodies are
modelled by the `Json` inductive below, with objects as ordered field lists,
matching the literal objects the source passes to `res.json`.
-/

/-- A JSON value; objects keep their fields in source order. -/
inductive Json where
  | null : Json
  | str : String → Json
  | num : Int → Json
  | bool : Bool → Json
  | arr : List Json → Json
  | obj : List (String × Json) → Json

/-- A line item as received from the client (interface `Product` in the
source).  `currency_id` is `none` when the field is absent; `extra` holds any
additional fields the client may have attached to the item object, which the
handler's explicit object literal never reads. -/
structure Product where
  id : String
  title : String
  quantity : Int
  unit_price : Int
  currency_id : Option String
  extra : List (String × Json)

/-- The optional payer block, passed through unchanged. -/
structure Payer where
  name : Option String
  email : Option String
  phone : Option String

/-- Body of a POST /api/create-preference request; `items` is `none` when the
field is absent from the body. -/
structure CreatePreferenceRequest where
  items : Option (List Product)
  payer : Option Payer

/-- A line item as placed in the gateway request: exactly the five fields the
source's object literal constructs. -/
structure GItem where
  id : String
  title : String
  quantity : Int
  unit_price : Int
  currency_id : String

/-- JavaScript `a || b` on an optional string: `undefined` and `""` are falsy. -/
def jsOrElse (a : Option String) (b : String) : String :=
  match a with
  | none => b
  | some s => if s = "" then b else s

/-- The per-item mapping in `preferenceData.items`: copies id, title, quantity
and unit_price, applying `item.currency_id || 'PEN'`. -/
def mapItem (p : Product) : GItem :=
  { id := p.id
    title := p.title
    quantity := p.quantity
    unit_price := p.unit_price
    currency_id := jsOrElse p.currency_id "PEN" }

/-- The `payment_methods` block of the gateway request. -/
structure PaymentMethods where
  excluded_payment_methods : List String
  excluded_payment_types : List String
  installments : Int

/-- The `back_urls` block of the gateway request. -/
structure BackUrls where
  success : String
  failure : String
  pending : String

/-- The checkout-session request the handler sends to the gateway
(`preferenceData` in the source). -/
structure PreferenceData where
  items : List GItem
  payment_methods : PaymentMethods
  back_urls : BackUrls
  auto_return : String
  payer : Option Payer
  notification_url : String
  statement_descriptor : String
  external_reference : String

/-- JavaScript template-literal interpolation of a possibly-undefined string:
`${undefined}` renders as the text "undefined". -/
def jsInterp (a : Option String) : String :=
  match a with
  | none => "undefined"
  | some s => s

/-- Builds `preferenceData` from the request.  `frontendUrl` is the
`FRONTEND_URL` environment variable (`none` when unset), `protocol` and `host`
come from the inbound request, `now` is `Date.now()` in milliseconds. -/
def buildPreferenceData (frontendUrl : Option String) (items : List Product)
    (payer : Option Payer) (protocol host : String) (now : Nat) : PreferenceData :=
  { items := items.map mapItem
    payment_methods :=
      { excluded_payment_methods := []
        excluded_payment_types := []
        installments := 12 }
    back_urls :=
      { success := jsInterp frontendUrl ++ "/success"
        failure := jsInterp frontendUrl ++ "/failure"
        pending := jsInterp frontendUrl ++ "/pending" }
    auto_return := "approved"
    payer := payer
    notification_url := protocol ++ "://" ++ host ++ "/api/webhook"
    statement_descriptor := "MI_ECOMMERCE"
    external_reference := "order_" ++ toString now }

/-- A failure thrown by a gateway call.  `message` is `some m` when the thrown
value is an `Error` with message `m`, and `none` otherwise (the
`error instanceof Error` test in the source). -/
structure GatewayError where
  message : Option String

/-- `error instanceof Error ? error.message : 'Unknown error'`. -/
def errDetails (e : GatewayError) : String :=
  match e.message with
  | some m => m
  | none => "Unknown error"

/-- The gateway's successful response to a session-creation call; the three
fields relayed by the handler. -/
structure SessionResult where
  id : Json
  init_point : Json
  sandbox_init_point : Json

/-- Result of the create-preference handler: HTTP status, response body and
the session request sent to the gateway (`none` when no gateway call was
made). -/
structure CreatePrefResult where
  status : Nat
  body : Json
  gatewayCall : Option PreferenceData

/-- The POST /api/create-preference handler.  `gateway` is
`preference.create`, modelled as a function of the session request. -/
def createPreference (frontendUrl : Option String) (req : CreatePreferenceRequest)
    (protocol host : String) (now : Nat)
    (gateway : PreferenceData → Except GatewayError SessionResult) : CreatePrefResult :=
  match req.items with
  | none =>
    { status := 400
      body := Json.obj [("error", Json.str "Items are required")]
      gatewayCall := none }
  | some items =>
    if items.length = 0 then
      { status := 400
        body := Json.obj [("error", Json.str "Items are required")]
        gatewayCall := none }
    else
      let pd := buildPreferenceData frontendUrl items req.payer protocol host now
      match gateway pd with
      | Except.ok r =>
        { status := 200
          body := Json.obj
            [("id", r.id), ("init_point", r.init_point),
             ("sandbox_init_point", r.sandbox_init_point)]
          gatewayCall := some pd }
      | Except.error e =>
        { status := 500
          body := Json.obj
            [("error", Json.str "Error creating payment preference"),
             ("details", Json.str (errDetails e))]
          gatewayCall := some pd }

/-- The gateway's payment record: the eight fields the source reads. -/
structure PaymentInfo where
  id : Json
  status : Json
  status_detail : Json
  transaction_amount : Json
  currency_id : Json
  payment_method_id : Json
  external_reference : Json
  date_created : Json

/-- Body of a POST /api/webhook request.  `data` is `none` when the field is
absent (in which case reading `data.id` throws). -/
structure WebhookEvent where
  type : String
  data : Option String

/-- Result of the webhook handler: HTTP status, response body, the payment id
looked up at the gateway (`none` when no lookup was made), and the
status-branch log lines. -/
structure WebhookResult where
  status : Nat
  body : Json
  lookupCall : Option String
  logs : List String

/-- The POST /api/webhook handler.  `paymentGet` is `payment.get`, modelled as
a function of the payment id.  When `type` is "payment" but `data` is absent,
reading `data.id` throws and the catch block answers 500. -/
def webhook (ev : WebhookEvent)
    (paymentGet : String → Except GatewayError PaymentInfo) : WebhookResult :=
  if ev.type = "payment" then
    match ev.data with
    | none =>
      { status := 500
        body := Json.obj [("error", Json.str "Webhook processing failed")]
        lookupCall := none
        logs := [] }
    | some paymentId =>
      match paymentGet paymentId with
      | Except.error _ =>
        { status := 500
          body := Json.obj [("error", Json.str "Webhook processing failed")]
          lookupCall := some paymentId
          logs := [] }
      | Except.ok info =>
        let statusLogs :=
          match info.status with
          | Json.str "approved" => ["Pago aprobado: " ++ paymentId]
          | Json.str "pending" => ["Pago pendiente: " ++ paymentId]
          | Json.str "rejected" => ["Pago rechazado: " ++ paymentId]
          | _ => []
        { status := 200
          body := Json.obj [("received", Json.bool true)]
          lookupCall := some paymentId
          logs := statusLogs }
  else
    { status := 200
      body := Json.obj [("received", Json.bool true)]
      lookupCall := none
      logs := [] }

/-- Result of the payment-lookup handler. -/
structure HandlerResult where
  status : Nat
  body : Json

/-- The GET /api/payment/:id handler. -/
def getPayment (paymentId : String)
    (paymentGet : String → Except GatewayError PaymentInfo) : HandlerResult :=
  match paymentGet paymentId with
  | Except.ok info =>
    { status := 200
      body := Json.obj
        [("id", info.id), ("status", info.status),
         ("status_detail", info.status_detail),
         ("transaction_amount", info.transaction_amount),
         ("currency_id", info.currency_id),
         ("payment_method_id", info.payment_method_id),
         ("external_reference", info.external_reference),
         ("date_created", info.date_created)] }
  | Except.error e =>
    { status := 500
      body := Json.obj
        [("error", Json.str "Error getting payment information"),
         ("details", Json.str (errDetails e))] }

/-- A concrete gateway that always succeeds, for witnesses. -/
def gwOk : PreferenceData → Except GatewayError SessionResult :=
  fun _ => Except.ok ⟨Json.str "pref1", Json.str "https://pay/init", Json.str "https://pay/sandbox"⟩

/-- A concrete gateway that always fails with a message, for witnesses. -/
def gwErr : PreferenceData → Except GatewayError SessionResult :=
  fun _ => Except.error ⟨some "boom"⟩

/-- A concrete payment record, for witnesses. -/
def payInfo0 : PaymentInfo :=
  ⟨Json.num 7, Json.str "approved", Json.str "accredited", Json.num 100,
   Json.str "PEN", Json.str "visa", Json.str "order_1", Json.str "2026-01-01"⟩

/-- A concrete payment lookup that always succeeds, for witnesses. -/
def pgOk : String → Except GatewayError PaymentInfo :=
  fun _ => Except.ok payInfo0

/-- A concrete payment lookup that always fails, for witnesses. -/
def pgErr : String → Except GatewayError PaymentInfo :=
  fun _ => Except.error ⟨some "lookup down"⟩

/-- A concrete line item, for witnesses. -/
def prod0 : Product :=
  ⟨"sku1", "Laptop", 1, 2500, some "USD", []⟩

/-- C1: a create-preference request with absent or empty `items` answers
exactly 400 with body {error: "Items are required"} and never calls the
gateway; a request with at least one item never takes this 400 branch. -/
theorem create_preference_items_required
    (frontendUrl : Option String) (req : CreatePreferenceRequest)
    (protocol host : String) (now : Nat)
    (gateway : PreferenceData → Except GatewayError SessionResult) :
    ((req.items = none ∨ req.items = some []) →
      createPreference frontendUrl req protocol host now gateway =
        ⟨400, Json.obj [("error", Json.str "Items are required")], none⟩) ∧
    (∀ p ps, req.items = some (p :: ps) →
      (createPreference frontendUrl req protocol host now gateway).status ≠ 400 ∧
      (createPreference frontendUrl req protocol host now gateway).gatewayCall ≠ none) := by
  constructor
  · rintro (h | h) <;> simp [createPreference, h]
  · intro p ps h
    simp only [createPreference, h]
    cases gateway (buildPreferenceData frontendUrl (p :: ps) req.payer protocol host now) <;>
      simp

/-- Witness for C1 at concrete requests: one with `items` absent, one with a
single item. -/
theorem create_preference_items_required_witness :
    (createPreference none ⟨none, none⟩ "http" "localhost:3001" 0 gwOk).gatewayCall = none ∧
    (createPreference none ⟨some [prod0], none⟩ "http" "localhost:3001" 0 gwOk).status ≠ 400 := by
  constructor
  · have h :=
      (create_preference_items_required none ⟨none, none⟩ "http" "localhost:3001" 0 gwOk).1
        (Or.inl rfl)
    rw [h]
  · exact ((create_preference_items_required none ⟨some [prod0], none⟩ "http" "localhost:3001"
      0 gwOk).2 prod0 [] rfl).1

/-- C2: with at least one item and a successful gateway session creation, the
handler answers 200 with the gateway response's id, init_point and
sandbox_init_point. -/
theorem create_preference_success
    (frontendUrl : Option String) (p : Product) (ps : List Product) (payer : Option Payer)
    (protocol host : String) (now : Nat)
    (gateway : PreferenceData → Except GatewayError SessionResult) (r : SessionResult)
    (h : gateway (buildPreferenceData frontendUrl (p :: ps) payer protocol host now) =
      Except.ok r) :
    createPreference frontendUrl ⟨some (p :: ps), payer⟩ protocol host now gateway =
      ⟨200,
       Json.obj [("id", r.id), ("init_point", r.init_point),
         ("sandbox_init_point", r.sandbox_init_point)],
       some (buildPreferenceData frontendUrl (p :: ps) payer protocol host now)⟩ := by
  simp [createPreference, h]

/-- Witness for C2 at a concrete one-item request against `gwOk`. -/
theorem create_preference_success_witness :
    createPreference none ⟨some [prod0], none⟩ "https" "shop.example" 5 gwOk =
      ⟨200,
       Json.obj [("id", Json.str "pref1"), ("init_point", Json.str "https://pay/init"),
         ("sandbox_init_point", Json.str "https://pay/sandbox")],
       some (buildPreferenceData none [prod0] none "https" "shop.example" 5)⟩ :=
  create_preference_success none prod0 [] none "https" "shop.example" 5 gwOk _ rfl

/-- C3: a line item with absent or empty currency_id is sent to the gateway
with currency "PEN"; a non-empty currency_id is sent unchanged; the gateway
request's items are exactly the per-item mapping of the input items. -/
theorem currency_default_pen (p : Product) :
    ((p.currency_id = none ∨ p.currency_id = some "") → (mapItem p).currency_id = "PEN") ∧
    (∀ s, p.currency_id = some s → s ≠ "" → (mapItem p).currency_id = s) ∧
    (∀ frontendUrl items payer protocol host now,
      (buildPreferenceData frontendUrl items payer protocol host now).items =
        items.map mapItem) := by
  refine ⟨?_, ?_, ?_⟩
  · rintro (h | h) <;> simp [mapItem, jsOrElse, h]
  · intro s h hs
    simp [mapItem, jsOrElse, h, hs]
  · intro _ _ _ _ _ _
    rfl

/-- Witness for C3 at items with absent, empty and non-empty currency. -/
theorem currency_default_pen_witness :
    (mapItem ⟨"a", "b", 1, 2, none, []⟩).currency_id = "PEN" ∧
    (mapItem ⟨"a", "b", 1, 2, some "", []⟩).currency_id = "PEN" ∧
    (mapItem prod0).currency_id = "USD" :=
  ⟨(currency_default_pen ⟨"a", "b", 1, 2, none, []⟩).1 (Or.inl rfl),
   (currency_default_pen ⟨"a", "b", 1, 2, some "", []⟩).1 (Or.inr rfl),
   (currency_default_pen prod0).2.1 "USD" rfl (by decide)⟩

/-- C4: the session request sent to the gateway carries no excluded payment
methods/types, installments 12, back URLs at the configured frontend origin
plus /success, /failure, /pending, auto_return "approved", statement
descriptor "MI_ECOMMERCE", a notification URL built from the inbound
request's protocol and host plus /api/webhook, and external reference
"order_" followed by the current millisecond timestamp; on a non-empty cart
this is exactly what the handler sends. -/
theorem preference_data_fixed_fields (f : String) (p : Product) (ps : List Product)
    (payer : Option Payer) (protocol host : String) (now : Nat)
    (gateway : PreferenceData → Except GatewayError SessionResult) :
    (buildPreferenceData (some f) (p :: ps) payer protocol host now).payment_methods =
      ⟨[], [], 12⟩ ∧
    (buildPreferenceData (some f) (p :: ps) payer protocol host now).back_urls =
      ⟨f ++ "/success", f ++ "/failure", f ++ "/pending"⟩ ∧
    (buildPreferenceData (some f) (p :: ps) payer protocol host now).auto_return =
      "approved" ∧
    (buildPreferenceData (some f) (p :: ps) payer protocol host now).statement_descriptor =
      "MI_ECOMMERCE" ∧
    (buildPreferenceData (some f) (p :: ps) payer protocol host now).notification_url =
      protocol ++ "://" ++ host ++ "/api/webhook" ∧
    (buildPreferenceData (some f) (p :: ps) payer protocol host now).external_reference =
      "order_" ++ toString now ∧
    (createPreference (some f) ⟨some (p :: ps), payer⟩ protocol host now gateway).gatewayCall =
      some (buildPreferenceData (some f) (p :: ps) payer protocol host now) := by
  refine ⟨rfl, rfl, rfl, rfl, rfl, rfl, ?_⟩
  simp only [createPreference]
  cases gateway (buildPreferenceData (some f) (p :: ps) payer protocol host now) <;> simp

/-- C5: a webhook event of type "payment" whose gateway lookup succeeds is
answered 200 {received: true}, whatever the reported payment status is. -/
theorem webhook_payment_ack (paymentId : String)
    (paymentGet : String → Except GatewayError PaymentInfo) (info : PaymentInfo)
    (h : paymentGet paymentId = Except.ok info) :
    (webhook ⟨"payment", some paymentId⟩ paymentGet).status = 200 ∧
    (webhook ⟨"payment", some paymentId⟩ paymentGet).body =
      Json.obj [("received", Json.bool true)] := by
  simp [webhook, h]

/-- Witness for C5 at a concrete payment event against `pgOk`. -/
theorem webhook_payment_ack_witness :
    (webhook ⟨"payment", some "123"⟩ pgOk).status = 200 ∧
    (webhook ⟨"payment", some "123"⟩ pgOk).body =
      Json.obj [("received", Json.bool true)] :=
  webhook_payment_ack "123" pgOk payInfo0 rfl

/-- C6: a webhook event of any type other than "payment" is answered 200
{received: true} and the gateway payment lookup is never invoked. -/
theorem webhook_other_type_ignored (t : String) (d : Option String)
    (paymentGet : String → Except GatewayError PaymentInfo) (h : t ≠ "payment") :
    webhook ⟨t, d⟩ paymentGet =
      ⟨200, Json.obj [("received", Json.bool true)], none, []⟩ := by
  simp [webhook, h]

/-- Witness for C6 at a concrete non-payment event. -/
theorem webhook_other_type_ignored_witness :
    webhook ⟨"merchant_order", some "55"⟩ pgOk =
      ⟨200, Json.obj [("received", Json.bool true)], none, []⟩ :=
  webhook_other_type_ignored "merchant_order" (some "55") pgOk (by decide)

/-- C7: GET /payment/:id passes the gateway payment's eight documented fields
through unchanged on success, and answers 500 with error and details fields
when the lookup rejects. -/
theorem get_payment_projection (paymentId : String)
    (paymentGet : String → Except GatewayError PaymentInfo)
    (info : PaymentInfo) (e : GatewayError) :
    (paymentGet paymentId = Except.ok info →
      getPayment paymentId paymentGet =
        ⟨200, Json.obj [("id", info.id), ("status", info.status),
          ("status_detail", info.status_detail),
          ("transaction_amount", info.transaction_amount),
          ("currency_id", info.currency_id),
          ("payment_method_id", info.payment_method_id),
          ("external_reference", info.external_reference),
          ("date_created", info.date_created)]⟩) ∧
    (paymentGet paymentId = Except.error e →
      getPayment paymentId paymentGet =
        ⟨500, Json.obj [("error", Json.str "Error getting payment information"),
          ("details", Json.str (errDetails e))]⟩) := by
  constructor <;> intro h <;> simp [getPayment, h]

/-- Witness for C7 at a concrete id against a succeeding and a failing
lookup. -/
theorem get_payment_projection_witness :
    getPayment "9" pgOk =
      ⟨200, Json.obj [("id", Json.num 7), ("status", Json.str "approved"),
        ("status_detail", Json.str "accredited"),
        ("transaction_amount", Json.num 100),
        ("currency_id", Json.str "PEN"),
        ("payment_method_id", Json.str "visa"),
        ("external_reference", Json.str "order_1"),
        ("date_created", Json.str "2026-01-01")]⟩ ∧
    getPayment "9" pgErr =
      ⟨500, Json.obj [("error", Json.str "Error getting payment information"),
        ("details", Json.str "lookup down")]⟩ :=
  ⟨(get_payment_projection "9" pgOk payInfo0 ⟨some "x"⟩).1 rfl,
   (get_payment_projection "9" pgErr payInfo0 ⟨some "lookup down"⟩).2 rfl⟩

/-- C8: on any gateway failure during create-preference or payment lookup,
the 500 response's details field is the underlying error's message when one
is carried, and "Unknown error" otherwise. -/
theorem gateway_failure_details (frontendUrl : Option String) (p : Product)
    (ps : List Product) (payer : Option Payer) (protocol host : String) (now : Nat)
    (gateway : PreferenceData → Except GatewayError SessionResult)
    (paymentGet : String → Except GatewayError PaymentInfo)
    (paymentId : String) (eCreate eGet : GatewayError) :
    (∀ m, ∀ e : GatewayError, e.message = some m → errDetails e = m) ∧
    (∀ e : GatewayError, e.message = none → errDetails e = "Unknown error") ∧
    (gateway (buildPreferenceData frontendUrl (p :: ps) payer protocol host now) =
        Except.error eCreate →
      createPreference frontendUrl ⟨some (p :: ps), payer⟩ protocol host now gateway =
        ⟨500, Json.obj [("error", Json.str "Error creating payment preference"),
          ("details", Json.str (errDetails eCreate))],
         some (buildPreferenceData frontendUrl (p :: ps) payer protocol host now)⟩) ∧
    (paymentGet paymentId = Except.error eGet →
      getPayment paymentId paymentGet =
        ⟨500, Json.obj [("error", Json.str "Error getting payment information"),
          ("details", Json.str (errDetails eGet))]⟩) := by
  refine ⟨?_, ?_, ?_, ?_⟩
  · intro m e h
    simp [errDetails, h]
  · intro e h
    simp [errDetails, h]
  · intro h
    simp [createPreference, h]
  · intro h
    simp [getPayment, h]

/-- Witness for C8 at concrete failing gateways, with and without an error
message. -/
theorem gateway_failure_details_witness :
    errDetails ⟨some "boom"⟩ = "boom" ∧
    errDetails ⟨none⟩ = "Unknown error" ∧
    createPreference none ⟨some [prod0], none⟩ "http" "h" 3 gwErr =
      ⟨500, Json.obj [("error", Json.str "Error creating payment preference"),
        ("details", Json.str "boom")],
       some (buildPreferenceData none [prod0] none "http" "h" 3)⟩ ∧
    getPayment "4" pgErr =
      ⟨500, Json.obj [("error", Json.str "Error getting payment information"),
        ("details", Json.str "lookup down")]⟩ := by
  have h := gateway_failure_details none prod0 [] none "http" "h" 3 gwErr pgErr "4"
    ⟨some "boom"⟩ ⟨some "lookup down"⟩
  exact ⟨h.1 "boom" ⟨some "boom"⟩ rfl, h.2.1 ⟨none⟩ rfl, h.2.2.1 rfl, h.2.2.2 rfl⟩

/-- C9: when webhook processing raises — the payload has type "payment" but
no data block, or the gateway lookup fails — the handler answers 500 with the
fixed body {error: "Webhook processing failed"}, carrying no detail of the
underlying error. -/
theorem webhook_failure_generic
    (paymentGet : String → Except GatewayError PaymentInfo)
    (paymentId : String) (e : GatewayError) :
    (webhook ⟨"payment", none⟩ paymentGet =
      ⟨500, Json.obj [("error", Json.str "Webhook processing failed")], none, []⟩) ∧
    (paymentGet paymentId = Except.error e →
      webhook ⟨"payment", some paymentId⟩ paymentGet =
        ⟨500, Json.obj [("error", Json.str "Webhook processing failed")],
         some paymentId, []⟩) := by
  constructor
  · simp [webhook]
  · intro h
    simp [webhook, h]

/-- Witness for C9 at a concrete malformed payload and a failing lookup. -/
theorem webhook_failure_generic_witness :
    webhook ⟨"payment", none⟩ pgErr =
      ⟨500, Json.obj [("error", Json.str "Webhook processing failed")], none, []⟩ ∧
    webhook ⟨"payment", some "1"⟩ pgErr =
      ⟨500, Json.obj [("error", Json.str "Webhook processing failed")], some "1", []⟩ :=
  ⟨(webhook_failure_generic pgErr "1" ⟨some "lookup down"⟩).1,
   (webhook_failure_generic pgErr "1" ⟨some "lookup down"⟩).2 rfl⟩

/-- C10: the per-item gateway mapping preserves id, title, quantity and
unit_price exactly; only currency_id may be altered, and any extra fields on
the input item are dropped (they do not influence the mapped item). -/
theorem item_fields_preserved (p : Product) :
    (mapItem p).id = p.id ∧
    (mapItem p).title = p.title ∧
    (mapItem p).quantity = p.quantity ∧
    (mapItem p).unit_price = p.unit_price ∧
    (∀ extra, mapItem { p with extra := extra } = mapItem p) :=
  ⟨rfl, rfl, rfl, rfl, fun _ => rfl⟩
